import Mathlib

/-!
Shallow embedding of the urban-air-quality-prediction backend.

The definitions below are translated from the Python sources:
  src/infrastructure/ml/feature_engineering.py
  src/infrastructure/ml/model_operations.py
  src/infrastructure/ml/ml_model_repository_impl.py
  src/infrastructure/database/location_cache_repository_impl.py
  src/infrastructure/database/prediction_repository_impl.py
  src/domain/use_cases/predict_aqi_use_case.py

Numeric pollutant values are modelled as rationals, timestamps as integers,
fallible code as Except or Option, and external collaborators (geocoder,
air-quality fetch, classifier, MongoDB driver) as explicit oracle arguments.
-/

namespace AirQuality

/-- The six pollutant attribute names of PollutantConcentrations
(src/domain/models/air_quality.py). -/
inductive PField where
  | pm25 | pm10 | o3 | no2 | so2 | co
deriving DecidableEq, Repr

/-- The list pollutant_cols of feature_engineering.py, and the field list
iterated by the auto-fill needs_filling check. -/
def pollutantCols : List PField :=
  [.pm25, .pm10, .o3, .no2, .so2, .co]

/-- The attribute name of each pollutant field. -/
def fieldName : PField → String
  | .pm25 => "pm25"
  | .pm10 => "pm10"
  | .o3 => "o3"
  | .no2 => "no2"
  | .so2 => "so2"
  | .co => "co"

/-- The pollutant field named by a string, for the six strings that name one
of the pollutant attributes of PollutantConcentrations; any other string
names no pollutant field.  The full hasattr probe of the fill loop is
modelled separately by attrIsNone, because on a pydantic model hasattr also
holds for non-field attributes. -/
def parseField (s : String) : Option PField :=
  if s = "pm25" then some .pm25
  else if s = "pm10" then some .pm10
  else if s = "o3" then some .o3
  else if s = "no2" then some .no2
  else if s = "so2" then some .so2
  else if s = "co" then some .co
  else none

/-- DEFAULT_POLLUTANT_MEAN_VALUES of feature_engineering.py. -/
def defaultMean : PField → ℚ
  | .pm25 => 25
  | .pm10 => 50
  | .o3 => 30
  | .no2 => 25
  | .so2 => 10
  | .co => 1/2

/-- The bounds dictionary of base_feature_engineering (feature_engineering.py,
lines 63 to 66). -/
def pollutantBounds : PField → ℚ × ℚ
  | .pm25 => (0, 500)
  | .pm10 => (0, 1000)
  | .o3 => (0, 400)
  | .no2 => (0, 300)
  | .so2 => (0, 200)
  | .co => (0, 50)

/-- A raw cell of the input frame for a pollutant column: a numeric value,
a non-numeric value, or an absent value. -/
inductive RawCell where
  | num (q : ℚ)
  | nonNum
  | missing
deriving DecidableEq, Repr

/-- Models `pd.to_numeric(column, errors=coerce)`: numeric cells keep their
value, non-numeric and absent cells become NaN (here: none). -/
def toNumeric : RawCell → Option ℚ
  | .num q => some q
  | .nonNum => none
  | .missing => none

/-- Models `series.clip(lower, upper)` of pandas: elementwise
min(max(x, lower), upper). -/
def clip (lo hi x : ℚ) : ℚ :=
  min hi (max lo x)

/-- The per-column pollutant processing of base_feature_engineering
(feature_engineering.py, lines 49 to 69): coerce to numeric, fill NaN with the
per-pollutant default mean, then clip to the declared bounds.  A column absent
from the frame behaves like a column of absent cells (it is created from the
default value and then clipped by the same code path). -/
def processPollutantCell (f : PField) (cell : RawCell) : ℚ :=
  clip (pollutantBounds f).1 (pollutantBounds f).2
    ((toNumeric cell).getD (defaultMean f))

/-- Models LabelEncoder.transform on a single value: members of classes_ map
to their index position, any other value raises. -/
def leTransform (classes : List String) (x : String) : Except String ℤ :=
  if x ∈ classes then .ok (classes.indexOf x) else .error "unseen label"

/-- The trained integer code of a vocabulary member: its index in the trained
class list. -/
def trainedCode (classes : List String) (x : String) : ℤ :=
  classes.indexOf x

/-- safe_label_transform of feature_engineering.py (lines 15 to 18), applied
to one cell: the encoder transform when the value is in the known classes,
else the sentinel -1.  The Except result records whether the call raises. -/
def safeLabelTransform (classes : List String) (x : String) : Except String ℤ :=
  if x ∈ classes then leTransform classes x else .ok (-1)

/-- A one-row engineered data frame: association list from column name to the
cell value of the single row. -/
abbrev Frame := List (String × ℚ)

/-- Column membership test, `col in df.columns`. -/
def hasCol (df : Frame) (c : String) : Bool :=
  df.any (fun p => p.1 = c)

/-- Cell read of a named column. -/
def getCol (df : Frame) (c : String) : Option ℚ :=
  (df.find? (fun p => p.1 = c)).map (fun p => p.2)

/-- Models the pandas column assignment `df[col] = v`: replace the column if
present, otherwise append it. -/
def setCol (df : Frame) (c : String) (v : ℚ) : Frame :=
  if hasCol df c then
    df.map (fun p => if p.1 = c then (c, v) else p)
  else df ++ [(c, v)]

/-- cols_to_use of prepare_data_for_model (feature_engineering.py). -/
def colsToUse : List String :=
  ["pm25", "pm10", "o3", "no2", "so2", "co",
   "dayofweek", "is_weekend",
   "total_pollutants", "pm25_pm10_ratio",
   "country_encoded", "loc_encoded"]

/-- prepare_data_for_model of feature_engineering.py (lines 95 to 121): any
required column missing from the engineered frame is filled with 0 (after a
log line), then the frame is re-indexed to the required columns; the KeyError
branch raises ValueError. -/
def prepareDataForModel (df : Frame) : Except String Frame :=
  let missingCols := colsToUse.filter (fun c => ¬ hasCol df c)
  let df2 := missingCols.foldl (fun d c => setCol d c 0) df
  if colsToUse.all (fun c => hasCol df2 c) then
    .ok (colsToUse.map (fun c => (c, (getCol df2 c).getD 0)))
  else
    .error "One or more required model features are missing"

/-- PollutantConcentrations (src/domain/models/air_quality.py): six optional
numeric fields. -/
structure PollutantConcentrations where
  pm25 : Option ℚ
  pm10 : Option ℚ
  o3 : Option ℚ
  no2 : Option ℚ
  so2 : Option ℚ
  co : Option ℚ
deriving DecidableEq, Repr

/-- getattr on a PollutantConcentrations instance for one of the six
pollutant attribute names. -/
def getF (p : PollutantConcentrations) : PField → Option ℚ
  | .pm25 => p.pm25
  | .pm10 => p.pm10
  | .o3 => p.o3
  | .no2 => p.no2
  | .so2 => p.so2
  | .co => p.co

/-- Dictionary assignment updated_pollutants_dict[code] = value for one of
the six pollutant keys. -/
def setF (p : PollutantConcentrations) : PField → ℚ → PollutantConcentrations
  | .pm25, v => { p with pm25 := some v }
  | .pm10, v => { p with pm10 := some v }
  | .o3, v => { p with o3 := some v }
  | .no2, v => { p with no2 := some v }
  | .so2, v => { p with so2 := some v }
  | .co, v => { p with co := some v }

/-- Python dict assignment on a string-keyed association list: an existing
key keeps its position and gets the new value, a new key is appended. -/
def dictInsertS (l : List (String × ℚ)) (k : String) (v : ℚ) : List (String × ℚ) :=
  if l.any (fun p => p.1 = k) then
    l.map (fun p => if p.1 = k then (k, v) else p)
  else l ++ [(k, v)]

/-- ExternalPollutantConcentration (air_quality.py): optional value field. -/
structure ExtConcentration where
  value : Option ℚ
deriving DecidableEq, Repr

/-- ExternalPollutantDetail (air_quality.py): pollutant code plus optional
concentration. -/
structure ExtPollutant where
  code : String
  concentration : Option ExtConcentration
deriving DecidableEq, Repr

/-- ExternalAirQualityData (air_quality.py): the parts the auto-fill
orchestrator reads.  The sourceApiName field models the
`getattr(external_aq_data, source_api_name, default)` probe of the use case:
none means the attribute is absent. -/
structure ExtAQData where
  fetchTimestamp : ℤ
  pollutants : List ExtPollutant
  sourceApiName : Option String
deriving DecidableEq, Repr

/-- StoredPredictionUsedMeasurements (air_quality.py): provenance record.
The pollutants field is a string-keyed dictionary, keyed by the lowercased
external pollutant codes copied by the fill loop. -/
structure UsedMeasurements where
  source : String
  timestamp : ℤ
  pollutants : List (String × ℚ)
deriving DecidableEq, Repr

/-- LocationContext (air_quality.py). -/
structure LocationContext where
  country : String
  city : String
  latitude : Option ℚ
  longitude : Option ℚ
  formattedAddress : Option String
  placeId : Option String
deriving DecidableEq, Repr

/-- GeocodedLocation (air_quality.py): latitude and longitude are required
fields. -/
structure GeocodedLocation where
  latitude : ℚ
  longitude : ℚ
  formattedAddress : String
  country : Option String
  city : Option String
  placeId : Option String
  sourceApi : Option String
deriving DecidableEq, Repr

/-- Python str.lower applied to a pollutant code: lowercase every
character. -/
def lowerStr (s : String) : String :=
  ⟨s.data.map Char.toLower⟩

/-- The needs_filling check of _auto_fill_pollutants
(predict_aqi_use_case.py, lines 50 to 52). -/
def needsFilling (p : PollutantConcentrations) : Bool :=
  pollutantCols.any (fun f => (getF p f).isNone)

/-- Attribute names of a pydantic version 2 BaseModel instance that exist on
a PollutantConcentrations object with value None: the model declares no
extra fields (default extra ignore, so model_extra and the underlying
pydantic extra slot are None) and no private attributes (so the pydantic
private slot is None).  The hasattr and getattr-is-None guard of the fill
loop therefore also passes for these non-field names. -/
def pydanticNoneAttrs : List String :=
  ["model_extra", "__pydantic_extra__", "__pydantic_private__"]

/-- The guard `hasattr(current_pollutants, code) and getattr(current_pollutants,
code) is None` of the fill loop (predict_aqi_use_case.py, line 91): true for
a pollutant field whose value in the original object is None, and for the
pydantic attribute names that are always None on this model; false for every
other string (either hasattr fails or getattr returns a non-None value such
as a method or a present field). -/
def attrIsNone (orig : PollutantConcentrations) (code : String) : Bool :=
  match parseField code with
  | some f => (getF orig f).isNone
  | none => decide (code ∈ pydanticNoneAttrs)

/-- State of the fill loop of _auto_fill_pollutants: the updated pollutant
dictionary, the filled_pollutants_from_source dictionary (string keyed, like
the source dicts), and the filled_any flag. -/
structure FillState where
  updated : PollutantConcentrations
  filled : List (String × ℚ)
  filledAny : Bool
deriving DecidableEq, Repr

/-- One iteration of the fill loop of _auto_fill_pollutants
(predict_aqi_use_case.py, lines 89 to 97): lowercase the external code; if
the hasattr and getattr-is-None guard passes and the external concentration
carries a value, write the value into the updated dictionary under that code
and record it in the provenance dictionary.  A key that names one of the six
pollutant fields updates that field; a pydantic non-field key becomes an
extra dictionary entry that the PollutantConcentrations constructor later
ignores (default extra ignore), so it leaves the updated pollutants
unchanged while still polluting the provenance dictionary and setting
filled_any. -/
def fillStep (orig : PollutantConcentrations) (st : FillState) (ext : ExtPollutant) :
    FillState :=
  if attrIsNone orig (lowerStr ext.code) then
    match ext.concentration with
    | some c =>
      match c.value with
      | some v =>
        { updated :=
            match parseField (lowerStr ext.code) with
            | some f => setF st.updated f v
            | none => st.updated,
          filled := dictInsertS st.filled (lowerStr ext.code) v,
          filledAny := true }
      | none => st
    | none => st
  else st

/-- The whole fill loop, starting from a copy of the original pollutants, an
empty provenance dictionary and filled_any = False. -/
def runFill (orig : PollutantConcentrations) (exts : List ExtPollutant) : FillState :=
  exts.foldl (fillStep orig) ⟨orig, [], false⟩

/-- Fallback source label of the provenance record
(predict_aqi_use_case.py, line 106). -/
def defaultSourceLabel : String := "External Air Quality Service"

/-- The part of _auto_fill_pollutants after coordinates are resolved
(predict_aqi_use_case.py, lines 80 to 110): fetch failure aborts enrichment;
otherwise run the fill loop; if nothing was filled return the original
pollutants and no provenance, else return the merged pollutants and the
provenance record. -/
def afterFetch (orig : PollutantConcentrations) (loc : LocationContext)
    (geo : GeocodedLocation) (fetchResult : Option ExtAQData) :
    PollutantConcentrations × Option UsedMeasurements × Option GeocodedLocation ×
      LocationContext :=
  match fetchResult with
  | none => (orig, none, some geo, loc)
  | some ext =>
    let st := runFill orig ext.pollutants
    if st.filledAny then
      (st.updated,
       some { source := ext.sourceApiName.getD defaultSourceLabel,
              timestamp := ext.fetchTimestamp,
              pollutants := st.filled },
       some geo, loc)
    else (orig, none, some geo, loc)

/-- PredictAQIUseCase._auto_fill_pollutants (predict_aqi_use_case.py, lines
37 to 110).  hasServices models the presence of the location and air-quality
services; geocodeResult models the geocode_location collaborator call;
fetchResult models the get_current_air_quality collaborator call.  The last
component of the result models the in-place mutation of the location
argument. -/
def autoFillPollutants (hasServices : Bool) (orig : PollutantConcentrations)
    (loc : LocationContext) (geocodeResult : Option GeocodedLocation)
    (fetchResult : Option ExtAQData) :
    PollutantConcentrations × Option UsedMeasurements × Option GeocodedLocation ×
      LocationContext :=
  if hasServices = false then (orig, none, none, loc)
  else if needsFilling orig = false then (orig, none, none, loc)
  else
    match loc.latitude, loc.longitude with
    | some lat, some lon =>
      let geo : GeocodedLocation :=
        { latitude := lat, longitude := lon,
          formattedAddress := loc.formattedAddress.getD "",
          country := some loc.country, city := some loc.city,
          placeId := loc.placeId, sourceApi := none }
      afterFetch orig loc geo fetchResult
    | _, _ =>
      match geocodeResult with
      | none => (orig, none, none, loc)
      | some g =>
        let loc2 := { loc with
          latitude := some g.latitude, longitude := some g.longitude,
          formattedAddress := some g.formattedAddress, placeId := g.placeId }
        afterFetch orig loc2 g fetchResult

/-- A document of the locations_cache collection
(location_cache_repository_impl.py): cache key, geocoded payload, creation
time, and the optional expireAt field (absent when the entry was written with
no TTL). -/
structure CacheDoc where
  cacheKey : String
  data : GeocodedLocation
  createdAt : ℤ
  expireAt : Option ℤ
deriving DecidableEq, Repr

/-- The physical content of the locations_cache collection, in insertion
order. -/
abbrev CacheStore := List CacheDoc

/-- MongoLocationCacheRepository._get_location_from_cache (lines 28 to 45):
find_one on the cache key and return the payload of the first match; a miss
returns None.  The query carries no condition on expireAt: the read performs
no expiry check. -/
def getLocationFromCache (store : CacheStore) (key : String) : Option GeocodedLocation :=
  (store.find? (fun d => d.cacheKey = key)).map (fun d => d.data)

/-- MongoLocationCacheRepository._save_location_to_cache (lines 47 to 73):
compute expireAt = now + ttl when a TTL is given; update_one with upsert on
the cache key.  The update uses a dollar-set document that contains the
expireAt field only when a TTL was given, so updating an existing entry with
no TTL leaves its previous expireAt in place. -/
def saveLocationToCache (store : CacheStore) (key : String)
    (locationData : GeocodedLocation) (ttlSeconds : Option ℤ) (now : ℤ) : CacheStore :=
  let newExpire : Option ℤ := ttlSeconds.map (fun t => now + t)
  if store.any (fun d => d.cacheKey = key) then
    store.map (fun d =>
      if d.cacheKey = key then
        { cacheKey := key, data := locationData, createdAt := now,
          expireAt := match newExpire with
            | some e => some e
            | none => d.expireAt }
      else d)
  else
    store ++ [{ cacheKey := key, data := locationData, createdAt := now,
                expireAt := newExpire }]

/-- StoredPredictionLocationInfo (air_quality.py). -/
structure StoredLocationInfo where
  latitude : Option ℚ
  longitude : Option ℚ
  formattedAddress : Option String
  displayName : Option String
  placeId : Option String
  source : Option String
deriving DecidableEq, Repr

/-- StoredPredictionInputData (air_quality.py): the input_data field of a
persisted prediction record.  An Option field valued none is excluded from
the stored document (model_dump with exclude_none in save_prediction), so
none models an absent stored field. -/
structure StoredInputData where
  date : String
  pm25 : Option ℚ
  pm10 : Option ℚ
  o3 : Option ℚ
  no2 : Option ℚ
  so2 : Option ℚ
  co : Option ℚ
  country : String
  loc : String
  autoFillFlag : Bool
deriving DecidableEq, Repr

/-- AQIPredictionResult (air_quality.py).  The probabilities dictionary is
modelled as an association list in insertion order. -/
structure AQIPredictionResultM where
  predictedCategory : String
  probabilities : List (String × ℚ)
  summaryMessage : String
deriving DecidableEq, Repr

/-- PredictionToStore (air_quality.py): a full persisted prediction record,
without the database id. -/
structure PredictionToStoreM where
  date : String
  inputData : StoredInputData
  predictedCategory : String
  probabilities : List (String × ℚ)
  summary : String
  locationInfo : Option StoredLocationInfo
  usedMeasurements : Option UsedMeasurements
  timestamp : ℤ
deriving DecidableEq, Repr

/-- HeatmapDataPoint (air_quality.py): latitude, longitude and aqi are all
required numeric fields. -/
structure HeatmapDataPointM where
  latitude : ℚ
  longitude : ℚ
  aqi : ℚ
deriving DecidableEq, Repr

/-- The static category-to-midpoint chain of get_all_predictions_for_map
(prediction_repository_impl.py, lines 121 to 133), default 0 for any other
label. -/
def categoryAqi (c : String) : ℚ :=
  if c = "Good" then 25
  else if c = "Moderate" then 75
  else if c = "Unhealthy for Sensitive Groups" then 125
  else if c = "Unhealthy" then 175
  else if c = "Very Unhealthy" then 250
  else if c = "Hazardous" then 350
  else 0

/-- The fixed six-value ordered category set of the classifier. -/
def aqiCategories : List String :=
  ["Good", "Moderate", "Unhealthy for Sensitive Groups",
   "Unhealthy", "Very Unhealthy", "Hazardous"]

/-- The per-record body of get_all_predictions_for_map
(prediction_repository_impl.py, lines 113 to 141): a record is turned into a
heatmap point only when its location_info and both stored coordinates are
present; the aqi of the point is the static midpoint chain applied to the
predicted category. -/
def heatPointOfPrediction (sp : PredictionToStoreM) : Option HeatmapDataPointM :=
  match sp.locationInfo with
  | none => none
  | some li =>
    match li.latitude, li.longitude with
    | some la, some lo =>
      some { latitude := la, longitude := lo, aqi := categoryAqi sp.predictedCategory }
    | _, _ => none

/-- get_all_predictions_for_map over the whole collection: each cursor
document first goes through _map_doc_to_stored_prediction, whose validation
failure (modelled by a none element) drops the document; surviving records
without coordinates are dropped by the per-record body. -/
def getAllPredictionsForMap (docs : List (Option PredictionToStoreM)) :
    List HeatmapDataPointM :=
  docs.filterMap (fun d =>
    match d with
    | none => none
    | some sp => heatPointOfPrediction sp)

/-- A python dict comprehension over a list of key-value pairs: left-to-right
insertion into an initially empty dict. -/
def dictOfPairs (ps : List (String × ℚ)) : List (String × ℚ) :=
  ps.foldl (fun d p => dictInsertS d p.1 p.2) []

/-- ModelResources (model_operations.py, lines 15 to 25): the loaded flag and
the four optional artifacts.  Only the class list of the category encoder is
observable through the prediction path, so the other three artifacts are
modelled as unit values. -/
structure ModelResources where
  loaded : Bool
  model : Option Unit
  leCountry : Option Unit
  leLoc : Option Unit
  leCat : Option (List String)
deriving DecidableEq, Repr

/-- The empty resource bundle created at module import
(model_operations.py, line 74). -/
def emptyResources : ModelResources :=
  ⟨false, none, none, none, none⟩

/-- The resource bundle after a successful load with the given category
encoder classes. -/
def loadedResources (classes : List String) : ModelResources :=
  ⟨true, some (), some (), some (), some classes⟩

/-- ModelResources.load (model_operations.py, lines 27 to 72): a no-op when
already loaded; otherwise load the four artifact files atomically.  The disk
oracle is none when any artifact file is missing or corrupt (the load then
raises RuntimeError and the loaded flag stays false) and carries the category
encoder classes when all four artifacts load. -/
def mrLoad (r : ModelResources) (disk : Option (List String)) :
    Except String ModelResources :=
  if r.loaded then .ok r
  else
    match disk with
    | some classes => .ok (loadedResources classes)
    | none => .error "Failed to load critical ML resources"

/-- load_ml_resources (model_operations.py, lines 76 to 87): call load when
not yet loaded, re-raising its RuntimeError. -/
def loadMlResources (r : ModelResources) (disk : Option (List String)) :
    Except String ModelResources :=
  if r.loaded = false then mrLoad r disk else .ok r

/-- ConcreteMLModelRepository.load_resources
(ml_model_repository_impl.py, lines 16 to 34). -/
def repoLoadResources (r : ModelResources) (disk : Option (List String)) :
    Except String ModelResources :=
  if r.loaded = false then
    match loadMlResources r disk with
    | .ok r2 =>
      if r2.loaded then .ok r2
      else .error "Failed to load ML resources via model_operations."
    | .error e => .error e
  else .ok r

/-- The summary_messages_map lookup of predict_aqi_category
(model_operations.py, lines 130 to 138), with the generic fallback.  The
message bodies are abbreviated; only the selection by exact label matters
here. -/
def summaryFor (cat : String) : String :=
  if cat = "Good" then "Good: little or no risk."
  else if cat = "Moderate" then "Moderate: acceptable air quality."
  else if cat = "Unhealthy for Sensitive Groups" then
    "Unhealthy for Sensitive Groups: sensitive groups may experience health effects."
  else if cat = "Unhealthy" then "Unhealthy: everyone may experience health effects."
  else if cat = "Very Unhealthy" then "Very Unhealthy: health alert."
  else if cat = "Hazardous" then "Hazardous: emergency conditions."
  else "No specific summary available for this category."

/-- predict_aqi_category (model_operations.py, lines 89 to 147).  The
classifier outputs are oracles: predEncodedArr models model.predict and
predProbaArr models model.predict_proba on the engineered frame.  Empty
output arrays raise; an out-of-range predicted integer makes
inverse_transform raise; both are caught and re-raised as RuntimeError.  The
probability dictionary is built by zipping the category encoder classes with
the first probability row. -/
def predictAqiCategory (r : ModelResources) (predEncodedArr : List ℕ)
    (predProbaArr : List (List ℚ)) : Except String AQIPredictionResultM :=
  match r.leCat with
  | none => .error "ML resources not available for prediction."
  | some classes =>
    if r.loaded = false ∨ r.model.isNone ∨ r.leCountry.isNone ∨ r.leLoc.isNone then
      .error "ML resources not available for prediction."
    else
      match predEncodedArr, predProbaArr with
      | [], _ => .error "Model prediction failed to produce output."
      | _, [] => .error "Model prediction failed to produce output."
      | predEncoded :: _, predProba :: _ =>
        match classes.get? predEncoded with
        | none => .error "Prediction failed: inverse transform out of range."
        | some label =>
          .ok { predictedCategory := label,
                probabilities := dictOfPairs (classes.zip predProba),
                summaryMessage := summaryFor label }

/-- ConcreteMLModelRepository.get_aqi_prediction
(ml_model_repository_impl.py, lines 40 to 60): when the resources are not
loaded, first trigger load_resources; when that raises or leaves the bundle
unloaded, the call fails without producing a prediction; otherwise run
predict_aqi_category.  The returned pair carries the resource state seen by
the prediction, modelling the module-level singleton. -/
def getAqiPrediction (r : ModelResources) (disk : Option (List String))
    (predEncodedArr : List ℕ) (predProbaArr : List (List ℚ)) :
    Except String (ModelResources × AQIPredictionResultM) :=
  let step : Except String ModelResources :=
    if r.loaded = false then
      match repoLoadResources r disk with
      | .error e => .error e
      | .ok r2 =>
        if r2.loaded = false then
          .error "ML resources are not loaded, and auto-load failed. Prediction aborted."
        else .ok r2
    else .ok r
  match step with
  | .error e => .error e
  | .ok r2 =>
    match predictAqiCategory r2 predEncodedArr predProbaArr with
    | .ok res => .ok (r2, res)
    | .error e => .error e

/-- StoredPrediction (air_quality.py): a persisted record as returned to the
caller, with its database id. -/
structure StoredPredictionM extends PredictionToStoreM where
  id : String
deriving DecidableEq, Repr

/-- The final_pollutants selection of execute (predict_aqi_use_case.py, lines
139 to 147): the updated pollutants are adopted only when the auto-fill
produced a provenance record. -/
def finalPollutantsOf (initial : PollutantConcentrations)
    (afRes : PollutantConcentrations × Option UsedMeasurements ×
      Option GeocodedLocation × LocationContext) : PollutantConcentrations :=
  match afRes.2.1 with
  | some _ => afRes.1
  | none => initial

/-- The source label of the stored location info (predict_aqi_use_case.py,
line 199). -/
def geoSourceLabel (geocodedInfo : Option GeocodedLocation) : String :=
  match geocodedInfo with
  | some g =>
    match g.sourceApi with
    | some s => s
    | none => "geocoding_service"
  | none => "geocoding_service"

/-- The location_info_for_storage construction of execute
(predict_aqi_use_case.py, lines 191 to 200): present only when the location
context carries both coordinates after auto-fill. -/
def storedLocationInfoOf (loc1 : LocationContext)
    (geocodedInfo : Option GeocodedLocation) : Option StoredLocationInfo :=
  match loc1.latitude, loc1.longitude with
  | some la, some lo =>
    some { latitude := some la, longitude := some lo,
           formattedAddress := loc1.formattedAddress,
           displayName := some loc1.city, placeId := loc1.placeId,
           source := some (geoSourceLabel geocodedInfo) }
  | _, _ => none

/-- The optional auto-fill step of execute (predict_aqi_use_case.py, lines
128 to 149): the location context is built from the request with no
coordinates; the orchestrator runs only when the auto-fill flag is set,
otherwise pollutants, provenance and location pass through unchanged. -/
def autoFillStepOf (pollutantsData : PollutantConcentrations)
    (countryArg cityArg : String) (autoFillMissing hasServices : Bool)
    (geocodeResult : Option GeocodedLocation) (fetchResult : Option ExtAQData) :
    PollutantConcentrations × Option UsedMeasurements × Option GeocodedLocation ×
      LocationContext :=
  if autoFillMissing then
    autoFillPollutants hasServices pollutantsData
      { country := countryArg, city := cityArg, latitude := none,
        longitude := none, formattedAddress := none, placeId := none }
      geocodeResult fetchResult
  else
    (pollutantsData, none, none,
      { country := countryArg, city := cityArg, latitude := none,
        longitude := none, formattedAddress := none, placeId := none })

/-- PredictAQIUseCase.execute (predict_aqi_use_case.py, lines 112 to 225).
Oracles: dateOk models the strptime parse of the date string; hasServices,
geocodeResult and fetchResult feed the auto-fill orchestrator; mlOracle
models the ml_model_repository.get_aqi_prediction call on the frame built
from the final pollutants; saveResult models the
prediction_repository.save_prediction call; now models datetime.now. -/
def executeUseCase (predictionDateStr : String) (dateOk : Bool)
    (pollutantsData : PollutantConcentrations) (countryArg cityArg : String)
    (autoFillMissing : Bool) (hasServices : Bool)
    (geocodeResult : Option GeocodedLocation) (fetchResult : Option ExtAQData)
    (mlOracle : PollutantConcentrations → Except String AQIPredictionResultM)
    (saveResult : Except String String) (now : ℤ) :
    Except String StoredPredictionM :=
  if dateOk = false then
    .error "Invalid date format for prediction_date_str. Must be YYYY-MM-DD."
  else
    match mlOracle (finalPollutantsOf pollutantsData
        (autoFillStepOf pollutantsData countryArg cityArg autoFillMissing
          hasServices geocodeResult fetchResult)), saveResult with
    | .error e, _ => .error ("ML model prediction failed: " ++ e)
    | .ok _, .error e =>
      .error ("Failed to save prediction: " ++ e)
    | .ok predictionResult, .ok predictionId =>
      .ok { date := predictionDateStr,
            inputData :=
              { date := predictionDateStr,
                pm25 := pollutantsData.pm25, pm10 := pollutantsData.pm10,
                o3 := pollutantsData.o3, no2 := pollutantsData.no2,
                so2 := pollutantsData.so2, co := pollutantsData.co,
                country := countryArg, loc := cityArg,
                autoFillFlag := autoFillMissing },
            predictedCategory := predictionResult.predictedCategory,
            probabilities := predictionResult.probabilities,
            summary := predictionResult.summaryMessage,
            locationInfo := storedLocationInfoOf
              (autoFillStepOf pollutantsData countryArg cityArg autoFillMissing
                hasServices geocodeResult fetchResult).2.2.2
              (autoFillStepOf pollutantsData countryArg cityArg autoFillMissing
                hasServices geocodeResult fetchResult).2.2.1,
            usedMeasurements :=
              (autoFillStepOf pollutantsData countryArg cityArg autoFillMissing
                hasServices geocodeResult fetchResult).2.1,
            timestamp := now,
            id := predictionId }

/-- An engineered one-row frame that carries every column required by the
model except country_encoded. -/
def c2Frame : Frame :=
  [("pm25", 25), ("pm10", 50), ("o3", 30), ("no2", 25), ("so2", 10), ("co", 1/2),
   ("dayofweek", 2), ("is_weekend", 0),
   ("total_pollutants", 281/2), ("pm25_pm10_ratio", 1/2),
   ("loc_encoded", 3)]

/-- A concrete geocoded payload used in the cache theorems. -/
def jakartaGeo : GeocodedLocation :=
  { latitude := -31/5, longitude := 534/5,
    formattedAddress := "Jakarta, Indonesia",
    country := some "Indonesia", city := some "Jakarta",
    placeId := none, sourceApi := some "google_places_api" }

lemma pollutantBounds_le (f : PField) : (pollutantBounds f).1 ≤ (pollutantBounds f).2 := by
  cases f <;> norm_num [pollutantBounds]

lemma defaultMean_mem_bounds (f : PField) :
    (pollutantBounds f).1 ≤ defaultMean f ∧ defaultMean f ≤ (pollutantBounds f).2 := by
  cases f <;> norm_num [pollutantBounds, defaultMean]

lemma clip_le (lo hi x : ℚ) : clip lo hi x ≤ hi :=
  min_le_left _ _

lemma le_clip (lo hi x : ℚ) (h : lo ≤ hi) : lo ≤ clip lo hi x :=
  le_min h (le_max_left _ _)

lemma clip_of_mem (lo hi x : ℚ) (h1 : lo ≤ x) (h2 : x ≤ hi) : clip lo hi x = x := by
  unfold clip
  rw [max_eq_right h1, min_eq_right h2]

/-- C6: for every pollutant column and every input cell, the feature
transform coerces the value to numeric, substitutes the fixed per-pollutant
default mean when the value is missing or non-numeric, and clips the result
into the declared range, which is pm25 in zero to 500, pm10 in zero to 1000,
o3 in zero to 400, no2 in zero to 300, so2 in zero to 200 and co in zero to
50, regardless of input magnitude. -/
theorem c6_pollutant_coerce_fill_clip (f : PField) (cell : RawCell) :
    (pollutantBounds f).1 ≤ processPollutantCell f cell ∧
    processPollutantCell f cell ≤ (pollutantBounds f).2 ∧
    (toNumeric cell = none → processPollutantCell f cell = defaultMean f) ∧
    (∀ q : ℚ, processPollutantCell f (.num q) =
      clip (pollutantBounds f).1 (pollutantBounds f).2 q) ∧
    pollutantBounds .pm25 = (0, 500) ∧ pollutantBounds .pm10 = (0, 1000) ∧
    pollutantBounds .o3 = (0, 400) ∧ pollutantBounds .no2 = (0, 300) ∧
    pollutantBounds .so2 = (0, 200) ∧ pollutantBounds .co = (0, 50) := by
  refine ⟨le_clip _ _ _ (pollutantBounds_le f), clip_le _ _ _, ?_, ?_, ?_, ?_, ?_, ?_, ?_, ?_⟩
  · intro h
    unfold processPollutantCell
    rw [h]
    exact clip_of_mem _ _ _ (defaultMean_mem_bounds f).1 (defaultMean_mem_bounds f).2
  · intro q
    rfl
  all_goals rfl

/-- Witness for C6 at a concrete absurdly large pm25 input and a missing
so2 input. -/
theorem c6_witness :
    processPollutantCell .pm25 (.num 123456) ≤ (pollutantBounds .pm25).2 ∧
    processPollutantCell .so2 .missing = defaultMean .so2 := by
  refine ⟨(c6_pollutant_coerce_fill_clip .pm25 (.num 123456)).2.1, ?_⟩
  exact (c6_pollutant_coerce_fill_clip .so2 .missing).2.2.1 rfl

/-- C8: every string of the trained vocabulary transforms to its exact
trained integer code, every string outside the vocabulary transforms to the
sentinel minus one, and the safe transform never raises. -/
theorem c8_encoder_sentinel (classes : List String) (x : String) :
    (x ∈ classes → safeLabelTransform classes x = .ok (trainedCode classes x)) ∧
    (x ∉ classes → safeLabelTransform classes x = .ok (-1)) ∧
    (∃ c : ℤ, safeLabelTransform classes x = .ok c) := by
  by_cases hx : x ∈ classes
  · refine ⟨fun _ => ?_, fun hc => absurd hx hc, ⟨trainedCode classes x, ?_⟩⟩ <;>
      simp [safeLabelTransform, leTransform, trainedCode, hx]
  · refine ⟨fun hc => absurd hc hx, fun _ => ?_, ⟨-1, ?_⟩⟩ <;>
      simp [safeLabelTransform, leTransform, hx]

/-- Witness for C8: a member of a concrete vocabulary round-trips to its
trained code and an unseen string maps to minus one. -/
theorem c8_witness :
    safeLabelTransform ["Indonesia", "Japan"] "Japan" =
      .ok (trainedCode ["Indonesia", "Japan"] "Japan") ∧
    safeLabelTransform ["Indonesia", "Japan"] "Atlantis" = .ok (-1) :=
  ⟨(c8_encoder_sentinel ["Indonesia", "Japan"] "Japan").1 (by decide),
   (c8_encoder_sentinel ["Indonesia", "Japan"] "Atlantis").2.1 (by decide)⟩

/-- C2 divergence: on a frame whose country_encoded column is missing,
prepare_data_for_model succeeds and silently returns a frame whose
country_encoded column is zero, instead of failing fast. -/
theorem c2_zero_fill_divergence :
    hasCol c2Frame "country_encoded" = false ∧
    (prepareDataForModel c2Frame).isOk = true ∧
    ((prepareDataForModel c2Frame).toOption.bind
      (fun out => getCol out "country_encoded")) = some 0 := by
  decide

/-- C7: a stored categorical-prediction record lacking location info or a
stored coordinate is dropped, a record with coordinates yields a point whose
aqi is the static category midpoint chain, the chain maps the six fixed
categories to 25, 75, 125, 175, 250 and 350, and every emitted point comes
from a record through that chain, so no point carries an absent aqi. -/
theorem c7_heatmap_points (sp : PredictionToStoreM) :
    (sp.locationInfo = none → heatPointOfPrediction sp = none) ∧
    (∀ li, sp.locationInfo = some li →
      (li.latitude = none ∨ li.longitude = none) → heatPointOfPrediction sp = none) ∧
    (∀ li la lo, sp.locationInfo = some li → li.latitude = some la →
      li.longitude = some lo →
      heatPointOfPrediction sp =
        some { latitude := la, longitude := lo,
               aqi := categoryAqi sp.predictedCategory }) ∧
    (categoryAqi "Good" = 25 ∧ categoryAqi "Moderate" = 75 ∧
     categoryAqi "Unhealthy for Sensitive Groups" = 125 ∧
     categoryAqi "Unhealthy" = 175 ∧ categoryAqi "Very Unhealthy" = 250 ∧
     categoryAqi "Hazardous" = 350) ∧
    (∀ (docs : List (Option PredictionToStoreM)) (p : HeatmapDataPointM),
      p ∈ getAllPredictionsForMap docs →
      ∃ q, some q ∈ docs ∧ heatPointOfPrediction q = some p) := by
  refine ⟨?_, ?_, ?_, ?_, ?_⟩
  · intro h
    simp [heatPointOfPrediction, h]
  · intro li hli hcoord
    rcases hcoord with h | h
    · simp [heatPointOfPrediction, hli, h]
    · simp only [heatPointOfPrediction, hli, h]
      cases hla : li.latitude <;> simp [hla]
  · intro li la lo hli hla hlo
    simp [heatPointOfPrediction, hli, hla, hlo]
  · refine ⟨?_, ?_, ?_, ?_, ?_, ?_⟩ <;> decide
  · intro docs p hp
    unfold getAllPredictionsForMap at hp
    rw [List.mem_filterMap] at hp
    obtain ⟨a, ha, hfa⟩ := hp
    cases a with
    | none => simp at hfa
    | some q => exact ⟨q, ha, hfa⟩

/-- Witness for C7 at concrete records: one with coordinates and category
Moderate yields the midpoint 75 point, one without location info is
dropped. -/
theorem c7_witness :
    heatPointOfPrediction
      { date := "2025-05-21",
        inputData :=
          { date := "2025-05-21", pm25 := some 60, pm10 := some 90, o3 := some 35,
            no2 := some 45, so2 := some 15, co := some (7/10),
            country := "Indonesia", loc := "Jakarta", autoFillFlag := false },
        predictedCategory := "Moderate", probabilities := [], summary := "s",
        locationInfo := some
          { latitude := some (-31/5), longitude := some (534/5),
            formattedAddress := none, displayName := none, placeId := none,
            source := none },
        usedMeasurements := none, timestamp := 0 } =
      some { latitude := -31/5, longitude := 534/5, aqi := 75 } := by
  have h := (c7_heatmap_points
    { date := "2025-05-21",
      inputData :=
        { date := "2025-05-21", pm25 := some 60, pm10 := some 90, o3 := some 35,
          no2 := some 45, so2 := some 15, co := some (7/10),
          country := "Indonesia", loc := "Jakarta", autoFillFlag := false },
      predictedCategory := "Moderate", probabilities := [], summary := "s",
      locationInfo := some
        { latitude := some (-31/5), longitude := some (534/5),
          formattedAddress := none, displayName := none, placeId := none,
          source := none },
      usedMeasurements := none, timestamp := 0 }).2.2.1
    { latitude := some (-31/5), longitude := some (534/5),
      formattedAddress := none, displayName := none, placeId := none,
      source := none } (-31/5) (534/5) rfl rfl rfl
  rw [h]
  rfl

/-- C3 counterexample: an entry written at time 0 with a ten-second TTL
carries expiresAt equal to ten; at read time 20 the entry is logically
expired, yet the cache get, which takes no read-time clock at all and runs
its query without any expiry condition, still returns it as a hit. -/
theorem c3_counterexample :
    getLocationFromCache
      (saveLocationToCache [] "geocode:indonesia:jakarta" jakartaGeo (some 10) 0)
      "geocode:indonesia:jakarta" = some jakartaGeo ∧
    (saveLocationToCache [] "geocode:indonesia:jakarta" jakartaGeo (some 10) 0).map
      (fun d => d.expireAt) = [some 10] ∧
    (10 : ℤ) < 20 := by
  refine ⟨rfl, rfl, by norm_num⟩

lemma find?_append_eq {α : Type} (p : α → Bool) (l1 l2 : List α) :
    (l1 ++ l2).find? p =
      match l1.find? p with
      | some a => some a
      | none => l2.find? p := by
  induction l1 with
  | nil => simp
  | cons a tl ih =>
    by_cases hpa : p a
    · simp [List.find?, hpa]
    · simp only [List.cons_append, List.find?, hpa]
      exact ih

lemma find?_replace_eq (store : CacheStore) (key : String) (cd : CacheDoc)
    (hcd : cd.cacheKey = key)
    (hany : store.any (fun d => d.cacheKey = key) = true) :
    (store.map (fun d => if d.cacheKey = key then cd else d)).find?
      (fun d => d.cacheKey = key) = some cd := by
  induction store with
  | nil => simp at hany
  | cons a tl ih =>
    by_cases ha : a.cacheKey = key
    · simp [List.find?, ha, hcd]
    · have htl : tl.any (fun d => d.cacheKey = key) = true := by
        simpa [List.any_cons, ha] using hany
      simpa [List.find?, ha] using ih htl

/-- C3 amended: a cache get returns None exactly when no entry is physically
present for the key; the read performs no expiry check, so eviction of
logically expired entries is entirely delegated to the backing TTL index;
a set with a TTL upserts the entry with expiresAt equal to now plus ttl, and
a subsequent get returns the freshly saved payload. -/
theorem c3_amended_cache_get (store : CacheStore) (key : String)
    (data : GeocodedLocation) (t now : ℤ) :
    (getLocationFromCache store key = none ↔ ∀ d ∈ store, ¬ d.cacheKey = key) ∧
    getLocationFromCache (saveLocationToCache store key data (some t) now) key =
      some data ∧
    ((saveLocationToCache store key data (some t) now).find?
      (fun d => d.cacheKey = key)).map (fun d => d.expireAt) =
      some (some (now + t)) := by
  have hfind :
      (saveLocationToCache store key data (some t) now).find?
        (fun d => d.cacheKey = key) =
      some { cacheKey := key, data := data, createdAt := now,
             expireAt := some (now + t) } := by
    unfold saveLocationToCache
    by_cases hany : store.any (fun d => d.cacheKey = key) = true
    · rw [if_pos hany]
      exact find?_replace_eq store key
        { cacheKey := key, data := data, createdAt := now,
          expireAt := some (now + t) } rfl hany
    · rw [if_neg hany]
      rw [find?_append_eq]
      have hnone : store.find? (fun d => d.cacheKey = key) = none := by
        rw [List.find?_eq_none]
        intro d hd
        have := (List.any_eq_true.not.mp hany)
        push_neg at this
        simpa using this d hd
      rw [hnone]
      simp [List.find?]
  refine ⟨?_, ?_, ?_⟩
  · unfold getLocationFromCache
    rw [Option.map_eq_none']
    rw [List.find?_eq_none]
    constructor
    · intro h d hd
      simpa using h d hd
    · intro h d hd
      simpa using h d hd
  · unfold getLocationFromCache
    rw [hfind]
    rfl
  · rw [hfind]
    rfl

/-- Witness for the amended C3 at a concrete store: an empty store misses,
and a fresh save with an 86400-second TTL at time 100 is read back with
expiresAt 86500. -/
theorem c3_amended_witness :
    (getLocationFromCache [] "geocode:indonesia:jakarta" = none ↔
      ∀ d ∈ ([] : CacheStore), ¬ d.cacheKey = "geocode:indonesia:jakarta") ∧
    getLocationFromCache
      (saveLocationToCache [] "geocode:indonesia:jakarta" jakartaGeo (some 86400) 100)
      "geocode:indonesia:jakarta" = some jakartaGeo ∧
    ((saveLocationToCache [] "geocode:indonesia:jakarta" jakartaGeo
        (some 86400) 100).find?
      (fun d => d.cacheKey = "geocode:indonesia:jakarta")).map
        (fun d => d.expireAt) = some (some (100 + 86400)) :=
  c3_amended_cache_get [] "geocode:indonesia:jakarta" jakartaGeo 86400 100

lemma getF_setF (p : PollutantConcentrations) (f g : PField) (v : ℚ) :
    getF (setF p g v) f = if f = g then some v else getF p f := by
  cases f <;> cases g <;> simp [getF, setF]

lemma fillStep_preserves (orig : PollutantConcentrations) (f : PField) (v : ℚ)
    (h : getF orig f = some v) (st : FillState) (e : ExtPollutant)
    (hst : getF st.updated f = some v) :
    getF (fillStep orig st e).updated f = some v := by
  unfold fillStep
  split
  · rename_i hguard
    split
    · rename_i c _hc
      split
      · rename_i w _hw
        cases hp : parseField (lowerStr e.code) with
        | some f0 =>
          have hnone : getF orig f0 = none := by
            have hg2 := hguard
            unfold attrIsNone at hg2
            rw [hp] at hg2
            simpa using hg2
          have hfg : ¬ f = f0 := by
            intro hh
            rw [hh, hnone] at h
            exact Option.noConfusion h
          simp [hp, getF_setF, hfg, hst]
        | none => simpa [hp] using hst
      · exact hst
    · exact hst
  · exact hst

lemma fillLoop_preserves (orig : PollutantConcentrations) (f : PField) (v : ℚ)
    (h : getF orig f = some v) (exts : List ExtPollutant) :
    ∀ st : FillState, getF st.updated f = some v →
      getF (exts.foldl (fillStep orig) st).updated f = some v := by
  induction exts with
  | nil => intro st hst; simpa using hst
  | cons e tl ih =>
    intro st hst
    rw [List.foldl_cons]
    exact ih (fillStep orig st e) (fillStep_preserves orig f v h st e hst)

lemma afterFetch_preserves (orig : PollutantConcentrations) (loc : LocationContext)
    (geo : GeocodedLocation) (fetchResult : Option ExtAQData) (f : PField) (v : ℚ)
    (h : getF orig f = some v) :
    getF (afterFetch orig loc geo fetchResult).1 f = some v := by
  unfold afterFetch
  cases fetchResult with
  | none => simpa using h
  | some ext =>
    simp only
    split
    · exact fillLoop_preserves orig f v h ext.pollutants ⟨orig, [], false⟩ h
    · simpa using h

/-- C1: for every input whose pollutant field is explicitly provided, the
pollutant set returned by the auto-fill orchestrator keeps the caller value
in that field, whatever the geocode and live-fetch collaborators return. -/
theorem c1_never_overwrites_caller_value (hasServices : Bool)
    (orig : PollutantConcentrations) (loc : LocationContext)
    (geocodeResult : Option GeocodedLocation) (fetchResult : Option ExtAQData)
    (f : PField) (v : ℚ) (h : getF orig f = some v) :
    getF (autoFillPollutants hasServices orig loc geocodeResult fetchResult).1 f =
      some v := by
  unfold autoFillPollutants
  by_cases hs : hasServices = false
  · simpa [hs] using h
  · rw [if_neg hs]
    by_cases hn : needsFilling orig = false
    · simpa [hn] using h
    · rw [if_neg hn]
      cases hla : loc.latitude with
      | some lat =>
        cases hlo : loc.longitude with
        | some lon =>
          exact afterFetch_preserves orig loc _ fetchResult f v h
        | none =>
          cases geocodeResult with
          | none => simpa using h
          | some g => exact afterFetch_preserves orig _ g fetchResult f v h
      | none =>
        cases geocodeResult with
        | none => simpa using h
        | some g => exact afterFetch_preserves orig _ g fetchResult f v h

/-- Witness for C1: a caller-supplied pm25 of 60 survives an auto-fill whose
live fetch reports pm25 equal to 42. -/
theorem c1_witness :
    getF (autoFillPollutants true
      { pm25 := some 60, pm10 := some 90, o3 := some 35, no2 := some 45,
        so2 := some 15, co := none }
      { country := "Indonesia", city := "Jakarta", latitude := none,
        longitude := none, formattedAddress := none, placeId := none }
      (some jakartaGeo)
      (some { fetchTimestamp := 1747785600,
              pollutants := [{ code := "PM25", concentration := some { value := some 42 } }],
              sourceApiName := none })).1 .pm25 = some 60 :=
  c1_never_overwrites_caller_value true
    { pm25 := some 60, pm10 := some 90, o3 := some 35, no2 := some 45,
      so2 := some 15, co := none }
    { country := "Indonesia", city := "Jakarta", latitude := none,
      longitude := none, formattedAddress := none, placeId := none }
    (some jakartaGeo)
    (some { fetchTimestamp := 1747785600,
            pollutants := [{ code := "PM25", concentration := some { value := some 42 } }],
            sourceApiName := none })
    .pm25 60 rfl

lemma parseField_fieldName (f : PField) : parseField (fieldName f) = some f := by
  cases f <;> rfl

lemma dictFold_append (ps : List (String × ℚ)) : ∀ acc : List (String × ℚ),
    ((acc ++ ps).map Prod.fst).Nodup →
    ps.foldl (fun d p => dictInsertS d p.1 p.2) acc = acc ++ ps := by
  induction ps with
  | nil =>
    intro acc _
    simp
  | cons kv tl ih =>
    obtain ⟨k, v⟩ := kv
    intro acc hnd
    rw [List.foldl_cons]
    have hmaps : (acc ++ (k, v) :: tl).map Prod.fst =
        acc.map Prod.fst ++ k :: tl.map Prod.fst := by simp
    rw [hmaps, List.nodup_append] at hnd
    have hknot : k ∉ acc.map Prod.fst := by
      intro hk
      exact (hnd.2.2 hk) (List.mem_cons_self _ _)
    have hins : dictInsertS acc (k, v).1 (k, v).2 = acc ++ [(k, v)] := by
      unfold dictInsertS
      have hfalse : acc.any (fun p => p.1 = k) = false := by
        rw [List.any_eq_false]
        intro p hp hpk
        exact hknot (List.mem_map.mpr ⟨p, hp, by simpa using hpk⟩)
      rw [if_neg (by simp [hfalse])]
    rw [hins]
    have hnd2 : (((acc ++ [(k, v)]) ++ tl).map Prod.fst).Nodup := by
      have e1 : ((acc ++ [(k, v)]) ++ tl).map Prod.fst =
          acc.map Prod.fst ++ k :: tl.map Prod.fst := by simp
      rw [e1, List.nodup_append]
      exact hnd
    rw [ih _ hnd2]
    simp

lemma dictOfPairs_eq_self (ps : List (String × ℚ))
    (h : (ps.map Prod.fst).Nodup) : dictOfPairs ps = ps := by
  unfold dictOfPairs
  have := dictFold_append ps [] (by simpa using h)
  simpa using this

/-- C4: with loaded resources whose category encoder holds distinct classes
and a probability row of matching length, the prediction result pairs the
i-th class label with the i-th probability, so the probability keys are
exactly the encoder class list, and the predicted label is the class at the
predicted integer index, that is the inverse transform of the predicted
code. -/
theorem c4_probabilities_zip (classes : List String) (hnd : classes.Nodup)
    (pv : List ℚ) (hlen : classes.length = pv.length) (e : ℕ)
    (he : e < classes.length) (restE : List ℕ) (restP : List (List ℚ)) :
    predictAqiCategory (loadedResources classes) (e :: restE) (pv :: restP) =
      .ok { predictedCategory := classes.get ⟨e, he⟩,
            probabilities := classes.zip pv,
            summaryMessage := summaryFor (classes.get ⟨e, he⟩) } ∧
    (classes.zip pv).map Prod.fst = classes := by
  have hmapfst : (classes.zip pv).map Prod.fst = classes :=
    List.map_fst_zip classes pv (le_of_eq hlen)
  have hdict : dictOfPairs (classes.zip pv) = classes.zip pv :=
    dictOfPairs_eq_self _ (by rw [hmapfst]; exact hnd)
  refine ⟨?_, hmapfst⟩
  unfold predictAqiCategory loadedResources
  simp [List.getElem?_eq_getElem, he, hdict, List.get_eq_getElem]

/-- Witness for C4 at the fixed six-category encoder and a concrete
probability vector. -/
theorem c4_witness :
    predictAqiCategory (loadedResources aqiCategories) [1]
      [[1/10, 1/2, 1/5, 1/10, 1/20, 1/20]] =
      .ok { predictedCategory := "Moderate",
            probabilities :=
              aqiCategories.zip [1/10, 1/2, 1/5, 1/10, 1/20, 1/20],
            summaryMessage := summaryFor "Moderate" } ∧
    (aqiCategories.zip [(1:ℚ)/10, 1/2, 1/5, 1/10, 1/20, 1/20]).map Prod.fst =
      aqiCategories := by
  have h := c4_probabilities_zip aqiCategories (by decide)
    [1/10, 1/2, 1/5, 1/10, 1/20, 1/20] (by decide) 1 (by decide) [] []
  exact h

/-- C9: when prediction is invoked with the resources not yet loaded, a load
attempt is auto-triggered first; if the artifacts are still unavailable the
call returns the resource-load failure and no prediction result, and if the
load now succeeds the call proceeds on the freshly loaded bundle. -/
theorem c9_unloaded_fails_without_result (r : ModelResources)
    (h : r.loaded = false) (arrE : List ℕ) (arrP : List (List ℚ)) :
    getAqiPrediction r none arrE arrP =
      .error "Failed to load critical ML resources" ∧
    (∀ classes, getAqiPrediction r (some classes) arrE arrP =
      match predictAqiCategory (loadedResources classes) arrE arrP with
      | .ok res => .ok (loadedResources classes, res)
      | .error e => .error e) := by
  constructor
  · simp [getAqiPrediction, repoLoadResources, loadMlResources, mrLoad, h]
  · intro classes
    simp [getAqiPrediction, repoLoadResources, loadMlResources, mrLoad, h,
      loadedResources]

/-- Witness for C9: the unloaded singleton with missing artifact files fails
with the resource-load error. -/
theorem c9_witness :
    getAqiPrediction emptyResources none [] [] =
      .error "Failed to load critical ML resources" :=
  (c9_unloaded_fails_without_result emptyResources rfl [] []).1

/-- C10: whenever the use case returns a stored prediction, the input_data
of the persisted record holds the caller-supplied original pollutant values,
with missing ones still absent, plus the location fields and the auto-fill
flag, whatever the auto-fill enrichment did. -/
theorem c10_stored_input_is_original (dateStr : String) (dateOk : Bool)
    (pd : PollutantConcentrations) (country city : String)
    (autoFill hasServices : Bool) (geoRes : Option GeocodedLocation)
    (fetchRes : Option ExtAQData)
    (mlOracle : PollutantConcentrations → Except String AQIPredictionResultM)
    (saveRes : Except String String) (now : ℤ) (sp : StoredPredictionM)
    (h : executeUseCase dateStr dateOk pd country city autoFill hasServices
      geoRes fetchRes mlOracle saveRes now = .ok sp) :
    sp.inputData.date = dateStr ∧
    sp.inputData.pm25 = pd.pm25 ∧ sp.inputData.pm10 = pd.pm10 ∧
    sp.inputData.o3 = pd.o3 ∧ sp.inputData.no2 = pd.no2 ∧
    sp.inputData.so2 = pd.so2 ∧ sp.inputData.co = pd.co ∧
    sp.inputData.country = country ∧ sp.inputData.loc = city ∧
    sp.inputData.autoFillFlag = autoFill := by
  cases dateOk with
  | false => simp [executeUseCase] at h
  | true =>
    rw [executeUseCase.eq_def] at h
    rw [if_neg (by simp)] at h
    cases hml : mlOracle (finalPollutantsOf pd (autoFillStepOf pd country city
        autoFill hasServices geoRes fetchRes)) with
    | error e =>
      rw [hml] at h
      cases saveRes <;> simp at h
    | ok res =>
      rw [hml] at h
      cases saveRes with
      | error e => simp at h
      | ok pid =>
        simp only [Except.ok.injEq] at h
        subst h
        exact ⟨rfl, rfl, rfl, rfl, rfl, rfl, rfl, rfl, rfl, rfl⟩

/-- Witness for C10: a concrete successful run with auto-fill on and a live
fetch filling pm25 stores the original absent pm25 in input_data. -/
theorem c10_witness :
    ∃ sp : StoredPredictionM,
      executeUseCase "2025-05-21" true
        { pm25 := none, pm10 := some 90, o3 := some 35, no2 := some 45,
          so2 := some 15, co := some (7/10) }
        "Indonesia" "Jakarta" true true (some jakartaGeo)
        (some { fetchTimestamp := 1747785600,
                pollutants :=
                  [{ code := "pm25", concentration := some { value := some 42 } }],
                sourceApiName := none })
        (fun _ => .ok { predictedCategory := "Moderate", probabilities := [],
                        summaryMessage := "s" })
        (.ok "id-1") 0 = .ok sp ∧
      sp.inputData.pm25 = none ∧ sp.inputData.pm10 = some 90 ∧
      sp.inputData.autoFillFlag = true := by
  refine ⟨_, rfl, ?_⟩
  have h := c10_stored_input_is_original "2025-05-21" true
    { pm25 := none, pm10 := some 90, o3 := some 35, no2 := some 45,
      so2 := some 15, co := some (7/10) }
    "Indonesia" "Jakarta" true true (some jakartaGeo)
    (some { fetchTimestamp := 1747785600,
            pollutants :=
              [{ code := "pm25", concentration := some { value := some 42 } }],
            sourceApiName := none })
    (fun _ => .ok { predictedCategory := "Moderate", probabilities := [],
                    summaryMessage := "s" })
    (.ok "id-1") 0 _ rfl
  exact ⟨h.2.1, h.2.2.1, h.2.2.2.2.2.2.2.2.2⟩

end AirQuality
